import Mathlib

attribute [local semireducible] Rat.add Rat.sub Rat.mul

/-!
Shallow embedding of the chemical record-keeping application (`src/app.py`).

The store holds the four SQLite tables (`chemicals`, `requests`, `issued`,
`notifications`) as lists of records, plus the auto-increment counters.
REAL columns are modelled as rationals, TEXT columns as strings, nullable
columns as options.  Each database-mutating Python function becomes a pure
Lean function from a store to a result paired with the new store; the
`datetime.utcnow().isoformat()` timestamp is passed in explicitly.
-/

namespace ChemApp

/-- A row of the `chemicals` table (primary key: `chemical`). -/
structure Chemical where
  serial_no : Option Int
  chemical : String
  amount_total : Rat
  amount_remaining : Rat
  issued_total : Rat
  unit : String
  cas_no : String
deriving DecidableEq, Repr

/-- A row of the `requests` table. -/
structure Request where
  id : Nat
  username : String
  chemical : String
  amount : Rat
  note : String
  status : String
  supervisor : Option String
  lab_incharge : Option String
  created_at : String
  updated_at : String
deriving DecidableEq, Repr

/-- A row of the `issued` table. -/
structure IssuedRecord where
  id : Nat
  username : String
  chemical : String
  amount : Rat
  issued_by : Option String
  issued_at : String
deriving DecidableEq, Repr

/-- A row of the `notifications` table (`seen` is an INTEGER 0/1 flag). -/
structure Notification where
  id : Nat
  recipient : String
  message : String
  seen : Bool
  created_at : String
deriving DecidableEq, Repr

/-- The whole SQLite database, with the auto-increment counters made
explicit. -/
structure Store where
  chemicals : List Chemical
  requests : List Request
  issued : List IssuedRecord
  notifications : List Notification
  nextRequestId : Nat
  nextIssuedId : Nat
  nextNotificationId : Nat
deriving DecidableEq, Repr

/-- `SELECT ... FROM chemicals WHERE chemical = ?` (`find_chemical_row`). -/
def find_chemical (s : Store) (name : String) : Option Chemical :=
  s.chemicals.find? (fun c => c.chemical = name)

/-- `SELECT ... FROM requests WHERE id = ?`. -/
def find_request (s : Store) (rid : Nat) : Option Request :=
  s.requests.find? (fun r => r.id = rid)

/-- Python's rendering of an optional actor in an f-string (`None` prints as
`"None"`). -/
def optStr (o : Option String) : String := o.getD "None"

/-- Rendering of a REAL value in an f-string; the exact text plays no role in
any claim. -/
def ratStr (q : Rat) : String := toString q.num ++ "/" ++ toString q.den

/-- `push_notification(recipient, message)`: INSERT with `seen` defaulting
to 0 and `created_at` the current time. -/
def push_notification (s : Store) (recipient message now : String) : Store :=
  { s with
    notifications := s.notifications ++
      [{ id := s.nextNotificationId, recipient := recipient,
         message := message, seen := false, created_at := now }],
    nextNotificationId := s.nextNotificationId + 1 }

/-- Result of `adjust_stock`; the code distinguishes the outcomes by the
returned pair `(ok, message_or_new_remaining)` with messages
`"Chemical not found in master list"` and `"Insufficient stock"`. -/
inductive AdjustResult where
  | notFound
  | insufficientStock
  | ok (newRemaining : Rat)
deriving DecidableEq, Repr

/-- `adjust_stock(chemical_name, delta)` from `src/app.py`: read the row,
fail if absent, fail if `remaining + delta < 0`, otherwise write
`remaining + delta` and, when `delta < 0`, `issued + (-delta)`. -/
def adjust_stock (s : Store) (chemical_name : String) (delta : Rat) :
    AdjustResult × Store :=
  match s.chemicals.find? (fun c => c.chemical = chemical_name) with
  | none => (.notFound, s)
  | some c =>
    let new_remaining := c.amount_remaining + delta
    if new_remaining < 0 then (.insufficientStock, s)
    else
      let new_issued :=
        if delta < 0 then c.issued_total + (-delta) else c.issued_total
      (.ok new_remaining,
       { s with chemicals := s.chemicals.map (fun x =>
          if x.chemical = chemical_name then
            { x with amount_remaining := new_remaining,
                     issued_total := new_issued }
          else x) })

example : (adjust_stock
    ⟨[⟨some 1, "HCl", 10, 10, 0, "g", ""⟩], [], [], [], 1, 1, 1⟩
    "HCl" (-3)).1 = AdjustResult.ok 7 := by decide

/-- A spreadsheet cell row as produced by `pd.read_excel`: a missing cell
is `pandas` NaN, modelled as `none`; `Names` is always stringified by the
code, so it is kept as a plain string. -/
structure ExcelRow where
  s_no : Option Int
  names : String
  quantity : Option Rat
  units : Option String
  q_issued : Option Rat
  q_remaining : Option Rat
  cas : Option String
deriving DecidableEq, Repr

/-- An uploaded spreadsheet: its (stripped) header row and its data rows. -/
structure ExcelFile where
  columns : List String
  rows : List ExcelRow
deriving DecidableEq, Repr

/-- The required header names checked by `upload_master_from_excel`. -/
def requiredColumns : List String :=
  ["S.NO.", "Names", "Quantity", "Units", "Q.Issued", "Q.Remaining", "CAS.No."]

/-- Python `str.strip()` on the leading side, over the character list. -/
def dropLeadingWs : List Char → List Char
  | [] => []
  | c :: cs => if c = ' ' ∨ c = '\t' ∨ c = '\n' ∨ c = '\r' then dropLeadingWs cs
               else c :: cs

/-- Python `str.strip()`: remove leading and trailing whitespace. -/
def pyStrip (s : String) : String :=
  ⟨(dropLeadingWs (dropLeadingWs s.data.reverse).reverse)⟩

/-- The per-row conversion performed inside the import loop: numeric cells
default to `0.0` when NaN, and a NaN `Q.Remaining` becomes
`qty - issued_total if qty else 0.0` (Python truthiness: `qty` counts as
false exactly when it is `0.0`). -/
def rowToChemical (r : ExcelRow) : Chemical :=
  let qty := r.quantity.getD 0
  let issued_total := r.q_issued.getD 0
  let remaining :=
    match r.q_remaining with
    | some v => v
    | none => if qty ≠ 0 then qty - issued_total else 0
  { serial_no := r.s_no
    chemical := pyStrip r.names
    amount_total := qty
    amount_remaining := remaining
    issued_total := issued_total
    unit := (r.units.map pyStrip).getD ""
    cas_no := (r.cas.map pyStrip).getD "" }

/-- `INSERT ... ON CONFLICT(chemical) DO UPDATE SET ...`: replace the row
with the same name when present, append otherwise. -/
def upsertChemical (acc : List Chemical) (c : Chemical) : List Chemical :=
  if acc.any (fun x => x.chemical = c.chemical) then
    acc.map (fun x => if x.chemical = c.chemical then c else x)
  else acc ++ [c]

/-- Result of `upload_master_from_excel`: the code raises `ValueError`
("Excel must contain columns: ...") on a missing header, else returns True. -/
inductive UploadResult where
  | schemaError
  | ok
deriving DecidableEq, Repr

/-- `upload_master_from_excel`: check the headers, then
`DELETE FROM chemicals` and upsert every spreadsheet row. -/
def upload_master_from_excel (s : Store) (f : ExcelFile) : UploadResult × Store :=
  if requiredColumns.all (fun col => f.columns.contains col) then
    (.ok,
     { s with chemicals := f.rows.foldl
                 (fun acc r => upsertChemical acc (rowToChemical r)) [] })
  else (.schemaError, s)

/-- Result of `create_request`: the failure message is
`"Requested amount (...) exceeds remaining stock (...)."`. -/
inductive CreateResult where
  | exceedsStock
  | created
deriving DecidableEq, Repr

/-- The INSERT performed by `create_request` on success: a fresh `Pending`
row whose two timestamps are both `now`. -/
def insert_request (s : Store) (username chemical : String) (amount : Rat)
    (note now : String) : Store :=
  { s with
    requests := s.requests ++
      [{ id := s.nextRequestId, username := username, chemical := chemical,
         amount := amount, note := note, status := "Pending",
         supervisor := none, lab_incharge := none,
         created_at := now, updated_at := now }],
    nextRequestId := s.nextRequestId + 1 }

/-- `create_request(username, chemical, amount, note)`: the ledger is only
consulted when the chemical has a row; an unknown chemical is accepted
unchecked. -/
def create_request (s : Store) (username chemical : String) (amount : Rat)
    (note now : String) : CreateResult × Store :=
  match s.chemicals.find? (fun c => c.chemical = chemical) with
  | some c =>
    if amount > c.amount_remaining then (.exceedsStock, s)
    else (.created, insert_request s username chemical amount note now)
  | none => (.created, insert_request s username chemical amount note now)

/-- Result of `update_request_status`; each constructor corresponds to one
`return` of the Python function (`"Request not found"`, `"Approved"`,
`"Rejected"`, `"Chemical not found in master list — cannot issue from
stock"`, `"Insufficient stock. Remaining: ..."`, `"Issued"`,
`"Unsupported status"`). -/
inductive UpdateResult where
  | requestNotFound
  | approved
  | rejected
  | issuedOk
  | chemicalNotFound
  | insufficientStock
  | unsupportedStatus
deriving DecidableEq, Repr

/-- `update_request_status(rid, status, supervisor, lab_incharge)` from
`src/app.py`.  Note that the fetched current status (`old_status` in the
code) is never consulted: the branches dispatch on the target string only. -/
def update_request_status (s : Store) (rid : Nat) (status : String)
    (supervisor lab_incharge : Option String) (now : String) :
    UpdateResult × Store :=
  match s.requests.find? (fun r => r.id = rid) with
  | none => (.requestNotFound, s)
  | some r =>
    if status = "Approved" then
      let s1 := { s with requests := s.requests.map (fun q =>
                    if q.id = rid then
                      { q with status := status, supervisor := supervisor,
                               updated_at := now }
                    else q) }
      let s2 := push_notification s1 r.username
        ("Your request #" ++ toString rid ++ " for " ++ ratStr r.amount ++ " " ++
         r.chemical ++ " was APPROVED by " ++ optStr supervisor ++ ".") now
      let s3 := push_notification s2 "lab_incharge"
        ("Request #" ++ toString rid ++ " for " ++ ratStr r.amount ++ " " ++
         r.chemical ++ " by " ++ r.username ++ " approved by " ++
         optStr supervisor ++ ".") now
      (.approved, s3)
    else if status = "Rejected" then
      let s1 := { s with requests := s.requests.map (fun q =>
                    if q.id = rid then
                      { q with status := status, supervisor := supervisor,
                               updated_at := now }
                    else q) }
      let s2 := push_notification s1 r.username
        ("Your request #" ++ toString rid ++ " for " ++ ratStr r.amount ++ " " ++
         r.chemical ++ " was REJECTED by " ++ optStr supervisor ++ ".") now
      (.rejected, s2)
    else if status = "Issued" then
      match s.chemicals.find? (fun c => c.chemical = r.chemical) with
      | none => (.chemicalNotFound, s)
      | some c =>
        if r.amount > c.amount_remaining then (.insufficientStock, s)
        else
          let s1 : Store :=
            { s with chemicals := s.chemicals.map (fun x =>
                if x.chemical = r.chemical then
                  { x with amount_remaining := x.amount_remaining - r.amount,
                           issued_total := x.issued_total + r.amount }
                else x) }
          let s2 : Store :=
            { s1 with requests := s1.requests.map (fun q =>
                if q.id = rid then
                  { q with status := status, lab_incharge := lab_incharge,
                           updated_at := now }
                else q) }
          let s3 : Store :=
            { s2 with
              issued := s2.issued ++
                [{ id := s2.nextIssuedId, username := r.username,
                   chemical := r.chemical, amount := r.amount,
                   issued_by := lab_incharge, issued_at := now }],
              nextIssuedId := s2.nextIssuedId + 1 }
          let s4 := push_notification s3 r.username
            ("Your request #" ++ toString rid ++ " for " ++ ratStr r.amount ++
             " " ++ r.chemical ++ " has been ISSUED by " ++
             optStr lab_incharge ++ ".") now
          (.issuedOk, s4)
    else (.unsupportedStatus, s)

/-- A row of the SELECT in `get_unseen_notifications`:
`(id, message, created_at)`. -/
abbrev NotifRow : Type := Nat × String × String

/-- `ORDER BY created_at DESC`: newer (larger) timestamps first. -/
def createdGe (a b : NotifRow) : Prop := b.2.2 ≤ a.2.2

instance : DecidableRel createdGe :=
  fun a b => inferInstanceAs (Decidable (b.2.2 ≤ a.2.2))

instance : IsTotal NotifRow createdGe := ⟨fun a b => le_total b.2.2 a.2.2⟩

instance : IsTrans NotifRow createdGe := ⟨fun _ _ _ h1 h2 => le_trans h2 h1⟩

/-- `get_unseen_notifications(user)`: the unseen rows of `user`, ordered by
`created_at` descending. -/
def get_unseen_notifications (s : Store) (user : String) : List NotifRow :=
  List.insertionSort createdGe
    ((s.notifications.filter (fun n => n.recipient = user ∧ n.seen = false)).map
      (fun n => (n.id, n.message, n.created_at)))

/-- `mark_notifications_seen(ids)`: early return on an empty list, else one
`UPDATE ... SET seen=1 WHERE id=?` per id. -/
def mark_notifications_seen (s : Store) (ids : List Nat) : Store :=
  if ids = [] then s
  else { s with notifications := s.notifications.map (fun n =>
    if n.id ∈ ids then { n with seen := true } else n) }

/-- Folding a whole sequence of `adjust_stock` calls on one chemical. -/
def adjust_many (s : Store) (name : String) (deltas : List Rat) : Store :=
  deltas.foldl (fun st d => (adjust_stock st name d).2) s

/-- Whether an `update_request_status` outcome is one of the three success
returns (`(True, ...)` in the code). -/
def updateSucceeds : UpdateResult → Bool
  | .approved => true
  | .rejected => true
  | .issuedOk => true
  | _ => false

/-- The recipient / seen-flag / timestamp view of a notification row, used
to state which notifications a transition appends. -/
def notifView (n : Notification) : String × Bool × String :=
  (n.recipient, n.seen, n.created_at)

/-!  ## General lemmas about the keyed updates used by the operations -/

/-- Updating the rows that match a name leaves `find?` by that name pointing
at the updated first match, provided the update preserves the name. -/
theorem find?_chemicals_update (l : List Chemical) (name : String)
    (upd : Chemical → Chemical) (h : ∀ x, (upd x).chemical = x.chemical) :
    (l.map fun x => if x.chemical = name then upd x else x).find?
        (fun x => x.chemical = name) =
      (l.find? (fun x => x.chemical = name)).map upd := by
  induction l with
  | nil => rfl
  | cons y l ih =>
    by_cases hy : y.chemical = name
    · simp [List.find?, hy, h]
    · simp [List.find?, hy, h, ih]

/-- The analogous fact for the `requests` table keyed by `id`. -/
theorem find?_requests_update (l : List Request) (rid : Nat)
    (upd : Request → Request) (h : ∀ x, (upd x).id = x.id) :
    (l.map fun x => if x.id = rid then upd x else x).find?
        (fun x => x.id = rid) =
      (l.find? (fun x => x.id = rid)).map upd := by
  induction l with
  | nil => rfl
  | cons y l ih =>
    by_cases hy : y.id = rid
    · simp [List.find?, hy, h]
    · simp [List.find?, hy, h, ih]

/-- Ledger row used by witnesses and counterexamples: `HCl`, 10 of 10
remaining, nothing issued yet. -/
def demoHCl : Chemical := ⟨some 1, "HCl", 10, 10, 0, "g", "7647-01-0"⟩

/-- Pending request used by witnesses and counterexamples: id 1, `alice`
asks for 5 units of `HCl`. -/
def demoReq : Request := ⟨1, "alice", "HCl", 5, "", "Pending", none, none, "t0", "t0"⟩

/-- A small store used by witnesses and counterexamples: one ledger row
(`HCl`, 10 of 10 remaining) and one `Pending` request (id 1, `alice`,
5 units of `HCl`). -/
def demoStore : Store := ⟨[demoHCl], [demoReq], [], [], 2, 1, 1⟩

example :
    (update_request_status demoStore 1 "Issued" none (some "lab") "t1").1 =
      UpdateResult.issuedOk := by decide

example :
    (find_chemical (update_request_status demoStore 1 "Issued" none
        (some "lab") "t1").2 "HCl").map Chemical.amount_remaining = some 5 := by
  decide

/-!  ## C3: `adjust_stock` functional behaviour -/

/-- C3. `adjustStock(chemical, delta)` fails with `NotFound` when the
chemical is absent from the ledger, fails with `InsufficientStock` when
`remaining + delta` would be negative, and otherwise succeeds: the row's
remaining becomes `remaining + delta` and, when `delta < 0`, issued grows
by `|delta|`, while for `delta > 0` (indeed for any `delta ≥ 0`) issued is
unchanged. -/
theorem adjust_stock_spec (s : Store) (name : String) (delta : Rat) :
    (find_chemical s name = none →
      adjust_stock s name delta = (.notFound, s)) ∧
    (∀ c, find_chemical s name = some c →
      (c.amount_remaining + delta < 0 →
        adjust_stock s name delta = (.insufficientStock, s)) ∧
      (0 ≤ c.amount_remaining + delta →
        (adjust_stock s name delta).1 =
            AdjustResult.ok (c.amount_remaining + delta) ∧
        find_chemical (adjust_stock s name delta).2 name =
          some { c with
                 amount_remaining := c.amount_remaining + delta,
                 issued_total :=
                   if delta < 0 then c.issued_total + (-delta)
                   else c.issued_total })) := by
  constructor
  · intro h
    unfold find_chemical at h
    unfold adjust_stock
    rw [h]
  · intro c hc
    unfold find_chemical at hc
    constructor
    · intro hneg
      unfold adjust_stock
      rw [hc]
      simp only [if_pos hneg]
    · intro hpos
      have hnotlt : ¬ c.amount_remaining + delta < 0 := not_lt.mpr hpos
      unfold adjust_stock
      rw [hc]
      simp only [if_neg hnotlt]
      constructor
      · trivial
      · unfold find_chemical
        dsimp only
        rw [find?_chemicals_update s.chemicals name
              (fun x =>
                { x with
                  amount_remaining := c.amount_remaining + delta,
                  issued_total :=
                    if delta < 0 then c.issued_total + (-delta)
                    else c.issued_total })
              (fun x => rfl), hc]
        rfl

/-- Witness for C3 at a concrete input: adjusting `HCl` by `-3` in the demo
store succeeds and leaves 7 remaining with 3 issued. -/
theorem adjust_stock_spec_witness :
    (adjust_stock demoStore "HCl" (-3)).1 = AdjustResult.ok 7 ∧
    find_chemical (adjust_stock demoStore "HCl" (-3)).2 "HCl" =
      some ⟨some 1, "HCl", 10, 7, 3, "g", "7647-01-0"⟩ :=
  ((adjust_stock_spec demoStore "HCl" (-3)).2 demoHCl (by decide)).2 (by decide)

/-!  ## C9: `adjust_stock` frame property -/

/-- Per-row frame relation of `adjust_stock` on chemical `name`: a row may
change only in `amount_remaining` and `issued_total`, and only when it is
the row for `name`. -/
def chemFrame (name : String) (x x' : Chemical) : Prop :=
  x'.serial_no = x.serial_no ∧ x'.chemical = x.chemical ∧
  x'.amount_total = x.amount_total ∧ x'.unit = x.unit ∧
  x'.cas_no = x.cas_no ∧ (x.chemical ≠ name → x' = x)

/-- `Forall₂` between a list and itself from a reflexivity proof. -/
theorem forall₂_self {α : Type} (R : α → α → Prop) (h : ∀ x, R x x) :
    ∀ l : List α, List.Forall₂ R l l
  | [] => .nil
  | a :: l => .cons (h a) (forall₂_self R h l)

/-- `Forall₂` between a list and its image under a pointwise-related map. -/
theorem forall₂_map_self {α : Type} (R : α → α → Prop) (f : α → α)
    (h : ∀ x, R x (f x)) : ∀ l : List α, List.Forall₂ R l (l.map f)
  | [] => .nil
  | a :: l => .cons (h a) (forall₂_map_self R f h l)

/-- C9. A successful `adjust_stock(c, d)` modifies only `amount_remaining`
and `issued_total` of the row for `c`: each row keeps its serial number,
name, total, unit and CAS number, rows for other chemicals are exactly
unchanged, and the requests, issued and notifications tables (and the
auto-increment counters) are untouched. -/
theorem adjust_stock_frame (s : Store) (name : String) (delta : Rat) (v : Rat)
    (h : (adjust_stock s name delta).1 = AdjustResult.ok v) :
    (adjust_stock s name delta).2.requests = s.requests ∧
    (adjust_stock s name delta).2.issued = s.issued ∧
    (adjust_stock s name delta).2.notifications = s.notifications ∧
    (adjust_stock s name delta).2.nextRequestId = s.nextRequestId ∧
    (adjust_stock s name delta).2.nextIssuedId = s.nextIssuedId ∧
    (adjust_stock s name delta).2.nextNotificationId = s.nextNotificationId ∧
    List.Forall₂ (chemFrame name)
      s.chemicals (adjust_stock s name delta).2.chemicals := by
  clear h
  have hrefl : ∀ x : Chemical, chemFrame name x x :=
    fun x => ⟨rfl, rfl, rfl, rfl, rfl, fun _ => rfl⟩
  unfold adjust_stock
  cases hfind : s.chemicals.find? (fun c => c.chemical = name) with
  | none =>
    exact ⟨rfl, rfl, rfl, rfl, rfl, rfl, forall₂_self _ hrefl s.chemicals⟩
  | some c =>
    dsimp only
    by_cases hneg : c.amount_remaining + delta < 0
    · rw [if_pos hneg]
      exact ⟨rfl, rfl, rfl, rfl, rfl, rfl, forall₂_self _ hrefl s.chemicals⟩
    · rw [if_neg hneg]
      refine ⟨rfl, rfl, rfl, rfl, rfl, rfl, forall₂_map_self _ _ ?_ s.chemicals⟩
      intro x
      by_cases hx : x.chemical = name
      · rw [if_pos hx]
        exact ⟨rfl, rfl, rfl, rfl, rfl, fun hne => absurd hx hne⟩
      · rw [if_neg hx]
        exact hrefl x

/-- Witness for C9: the successful `-3` adjustment on the demo store leaves
the other tables untouched and only rewrites the `HCl` quantities. -/
theorem adjust_stock_frame_witness :
    (adjust_stock demoStore "HCl" (-3)).2.requests = demoStore.requests ∧
    (adjust_stock demoStore "HCl" (-3)).2.issued = demoStore.issued ∧
    (adjust_stock demoStore "HCl" (-3)).2.notifications =
        demoStore.notifications ∧
    (adjust_stock demoStore "HCl" (-3)).2.nextRequestId =
        demoStore.nextRequestId ∧
    (adjust_stock demoStore "HCl" (-3)).2.nextIssuedId =
        demoStore.nextIssuedId ∧
    (adjust_stock demoStore "HCl" (-3)).2.nextNotificationId =
        demoStore.nextNotificationId ∧
    List.Forall₂ (chemFrame "HCl")
      demoStore.chemicals (adjust_stock demoStore "HCl" (-3)).2.chemicals :=
  adjust_stock_frame demoStore "HCl" (-3) 7 (by decide)

/-!  ## C2: stock invariants under sequences of `adjust_stock` calls -/

/-- One `adjust_stock` step, seen from the row it targets: on failure the
row is unchanged, on success it carries the new quantities. -/
theorem adjust_stock_found (s : Store) (name : String) (delta : Rat)
    (c : Chemical) (hc : find_chemical s name = some c) :
    find_chemical (adjust_stock s name delta).2 name =
      some (if c.amount_remaining + delta < 0 then c
            else { c with
                   amount_remaining := c.amount_remaining + delta,
                   issued_total :=
                     if delta < 0 then c.issued_total + (-delta)
                     else c.issued_total }) := by
  unfold find_chemical at hc ⊢
  unfold adjust_stock
  rw [hc]
  dsimp only
  by_cases hneg : c.amount_remaining + delta < 0
  · rw [if_pos hneg, if_pos hneg, hc]
  · rw [if_neg hneg, if_neg hneg]
    dsimp only
    rw [find?_chemicals_update s.chemicals name
          (fun x =>
            { x with
              amount_remaining := c.amount_remaining + delta,
              issued_total :=
                if delta < 0 then c.issued_total + (-delta)
                else c.issued_total })
          (fun x => rfl), hc]
    rfl

/-- C2 (amended). Starting from a ledger row that is internally consistent
(`remaining ≥ 0` and `remaining + issued = total`, as a consistent import
row yields), every sequence of `adjust_stock` calls with non-positive
deltas keeps `remaining ≥ 0`, keeps `total` unchanged and keeps
`remaining + issued = total`. -/
theorem adjust_many_nonpositive_invariant (name : String) :
    ∀ (deltas : List Rat) (s : Store) (c : Chemical),
      find_chemical s name = some c →
      0 ≤ c.amount_remaining →
      c.amount_remaining + c.issued_total = c.amount_total →
      (∀ d ∈ deltas, d ≤ 0) →
      ∃ c', find_chemical (adjust_many s name deltas) name = some c' ∧
        c'.amount_total = c.amount_total ∧
        0 ≤ c'.amount_remaining ∧
        c'.amount_remaining + c'.issued_total = c'.amount_total := by
  intro deltas
  induction deltas with
  | nil =>
    intro s c hc h0 hsum _
    exact ⟨c, hc, rfl, h0, hsum⟩
  | cons d ds ih =>
    intro s c hc h0 hsum hd
    have hd0 : d ≤ 0 := hd d (List.mem_cons_self d ds)
    have hds : ∀ x ∈ ds, x ≤ 0 := fun x hx => hd x (List.mem_cons_of_mem d hx)
    have hstep := adjust_stock_found s name d c hc
    show ∃ c', find_chemical
        (adjust_many (adjust_stock s name d).2 name ds) name = some c' ∧ _
    by_cases hneg : c.amount_remaining + d < 0
    · rw [if_pos hneg] at hstep
      exact ih (adjust_stock s name d).2 c hstep h0 hsum hds
    · rw [if_neg hneg] at hstep
      have h0' : (0 : Rat) ≤ c.amount_remaining + d := not_lt.mp hneg
      have hsum' :
          c.amount_remaining + d +
            (if d < 0 then c.issued_total + (-d) else c.issued_total) =
            c.amount_total := by
        by_cases hdlt : d < 0
        · rw [if_pos hdlt]; linarith
        · have hzero : d = 0 := le_antisymm hd0 (not_lt.mp hdlt)
          rw [if_neg hdlt, hzero]; linarith
      refine ih (adjust_stock s name d).2
        { c with
          amount_remaining := c.amount_remaining + d,
          issued_total :=
            if d < 0 then c.issued_total + (-d) else c.issued_total }
        hstep h0' hsum' hds

/-- Witness for C2 (amended): issuing 3 then 2 units of `HCl` from the demo
store keeps the row consistent. -/
theorem adjust_many_nonpositive_invariant_witness :
    ∃ c', find_chemical (adjust_many demoStore "HCl" [-3, -2]) "HCl" =
        some c' ∧
      c'.amount_total = demoHCl.amount_total ∧
      0 ≤ c'.amount_remaining ∧
      c'.amount_remaining + c'.issued_total = c'.amount_total :=
  adjust_many_nonpositive_invariant "HCl" [-3, -2] demoStore demoHCl
    (by decide) (by decide) (by decide) (by decide)

/-- The empty database, as `init_db` creates it. -/
def emptyStore : Store := ⟨[], [], [], [], 1, 1, 1⟩

/-- A well-formed one-row spreadsheet: `HCl`, quantity 10, issued 0,
remaining 10. -/
def hclFile : ExcelFile :=
  ⟨requiredColumns, [⟨some 1, "HCl", some 10, some "g", some 0, some 10, some ""⟩]⟩

/-- Counterexample to C2 as stated: after importing a consistent row
(`total = 10`, `remaining = 10`, `issued = 0`), the single `adjust_stock`
call with `delta = +5` succeeds and leaves `remaining + issued = 15 ≠ 10 =
total`, so `remaining + issued == total` is not invariant under arbitrary
`adjust_stock` sequences. -/
theorem stock_sum_invariant_counterexample :
    (adjust_stock (upload_master_from_excel emptyStore hclFile).2 "HCl" 5).1 =
      AdjustResult.ok 15 ∧
    (find_chemical
        (adjust_stock (upload_master_from_excel emptyStore hclFile).2
          "HCl" 5).2 "HCl").map
        (fun c => (c.amount_remaining + c.issued_total, c.amount_total)) =
      some (15, 10) ∧
    (15 : Rat) ≠ 10 := by decide

/-!  ## C4: `create_request` functional behaviour -/

/-- C4. `createRequest(user, chemical, amount, note)` fails with
`ExceedsStock` exactly when the chemical has a ledger row and
`amount > remaining` (and then changes nothing); an unknown chemical is
accepted with no ledger check; and every success inserts one new request
with status `Pending`, no reviewer yet, and both timestamps equal to now,
touching no other table. -/
theorem create_request_spec (s : Store) (user chem : String) (amount : Rat)
    (note now : String) :
    (find_chemical s chem = none →
      create_request s user chem amount note now =
        (.created, insert_request s user chem amount note now)) ∧
    (∀ c, find_chemical s chem = some c →
      (amount > c.amount_remaining →
        create_request s user chem amount note now = (.exceedsStock, s)) ∧
      (amount ≤ c.amount_remaining →
        create_request s user chem amount note now =
          (.created, insert_request s user chem amount note now))) ∧
    (insert_request s user chem amount note now).requests =
      s.requests ++
        [⟨s.nextRequestId, user, chem, amount, note, "Pending", none, none,
          now, now⟩] ∧
    (insert_request s user chem amount note now).chemicals = s.chemicals ∧
    (insert_request s user chem amount note now).issued = s.issued ∧
    (insert_request s user chem amount note now).notifications =
      s.notifications := by
  refine ⟨?_, ?_, rfl, rfl, rfl, rfl⟩
  · intro h
    unfold find_chemical at h
    unfold create_request
    rw [h]
  · intro c hc
    unfold find_chemical at hc
    constructor
    · intro hgt
      unfold create_request
      rw [hc]
      dsimp only
      rw [if_pos hgt]
    · intro hle
      unfold create_request
      rw [hc]
      dsimp only
      rw [if_neg (not_lt.mpr hle)]

/-- Witness for C4: `bob` requesting 4 units of `HCl` (10 remaining in the
demo store) succeeds and appends a `Pending` request. -/
theorem create_request_spec_witness :
    create_request demoStore "bob" "HCl" 4 "" "t3" =
      (CreateResult.created, insert_request demoStore "bob" "HCl" 4 "" "t3") :=
  ((create_request_spec demoStore "bob" "HCl" 4 "" "t3").2.1 demoHCl
    (by decide)).2 (by decide)

/-!  ## C5: the `Issued` transition -/

/-- C5. `setStatus` to `Issued` on an existing request for chemical `c`
with amount `a` fails with `NotFound` when `c` has no ledger row, fails
with `InsufficientStock` when `a > remaining` (both leaving the store
unchanged); on success it decrements remaining by `a`, increments issued
by `a`, appends exactly one issuance record with amount `a` and the acting
lab incharge, sets the request status to `Issued`, and enqueues one
notification to the requester. -/
theorem issue_transition_spec (s : Store) (rid : Nat) (sup lab : Option String)
    (now : String) (r : Request) (hr : find_request s rid = some r) :
    (find_chemical s r.chemical = none →
      update_request_status s rid "Issued" sup lab now =
        (.chemicalNotFound, s)) ∧
    (∀ c, find_chemical s r.chemical = some c →
      (r.amount > c.amount_remaining →
        update_request_status s rid "Issued" sup lab now =
          (.insufficientStock, s)) ∧
      (r.amount ≤ c.amount_remaining →
        (update_request_status s rid "Issued" sup lab now).1 =
            UpdateResult.issuedOk ∧
        find_chemical (update_request_status s rid "Issued" sup lab now).2
            r.chemical =
          some { c with
                 amount_remaining := c.amount_remaining - r.amount,
                 issued_total := c.issued_total + r.amount } ∧
        (update_request_status s rid "Issued" sup lab now).2.issued =
          s.issued ++
            [⟨s.nextIssuedId, r.username, r.chemical, r.amount, lab, now⟩] ∧
        find_request (update_request_status s rid "Issued" sup lab now).2
            rid =
          some { r with status := "Issued", lab_incharge := lab,
                        updated_at := now } ∧
        (update_request_status s rid "Issued" sup lab now).2.notifications.map
            notifView =
          s.notifications.map notifView ++ [(r.username, false, now)])) := by
  unfold find_request at hr
  have hA : ¬ ("Issued" : String) = "Approved" := by decide
  have hR : ¬ ("Issued" : String) = "Rejected" := by decide
  constructor
  · intro hnone
    unfold find_chemical at hnone
    unfold update_request_status
    rw [hr]
    dsimp only
    rw [if_neg hA, if_neg hR, if_pos rfl, hnone]
  · intro c hc
    unfold find_chemical at hc
    constructor
    · intro hgt
      unfold update_request_status
      rw [hr]
      dsimp only
      rw [if_neg hA, if_neg hR, if_pos rfl, hc]
      dsimp only
      rw [if_pos hgt]
    · intro hle
      unfold update_request_status
      rw [hr]
      dsimp only
      rw [if_neg hA, if_neg hR, if_pos rfl, hc]
      dsimp only
      rw [if_neg (not_lt.mpr hle)]
      dsimp only [push_notification]
      refine ⟨rfl, ?_, rfl, ?_, ?_⟩
      · unfold find_chemical
        dsimp only
        rw [find?_chemicals_update s.chemicals r.chemical
              (fun x =>
                { x with
                  amount_remaining := x.amount_remaining - r.amount,
                  issued_total := x.issued_total + r.amount })
              (fun x => rfl), hc]
        rfl
      · unfold find_request
        dsimp only
        rw [find?_requests_update s.requests rid
              (fun q =>
                { q with status := "Issued", lab_incharge := lab,
                         updated_at := now })
              (fun x => rfl), hr]
        rfl
      · dsimp only [push_notification]
        rw [List.map_append]
        rfl

/-- Approved request used by witnesses: same as the demo request but already
reviewed by `sue`. -/
def demoReqApproved : Request :=
  ⟨1, "alice", "HCl", 5, "", "Approved", some "sue", none, "t0", "t0"⟩

/-- Demo store whose single request is already `Approved`. -/
def demoStoreApproved : Store :=
  ⟨[demoHCl], [demoReqApproved], [], [], 2, 1, 1⟩

/-- Witness for C5: issuing the approved demo request (5 of `HCl`, 10
remaining) succeeds, moves the row to `5 remaining / 5 issued`, appends one
issuance record and one notification to `alice`. -/
theorem issue_transition_spec_witness :
    (update_request_status demoStoreApproved 1 "Issued" none (some "lab")
        "t1").1 = UpdateResult.issuedOk ∧
    find_chemical (update_request_status demoStoreApproved 1 "Issued" none
        (some "lab") "t1").2 "HCl" =
      some ⟨some 1, "HCl", 10, 5, 5, "g", "7647-01-0"⟩ ∧
    (update_request_status demoStoreApproved 1 "Issued" none (some "lab")
        "t1").2.issued =
      [⟨1, "alice", "HCl", 5, some "lab", "t1"⟩] ∧
    find_request (update_request_status demoStoreApproved 1 "Issued" none
        (some "lab") "t1").2 1 =
      some ⟨1, "alice", "HCl", 5, "", "Issued", some "sue", some "lab",
            "t0", "t1"⟩ ∧
    (update_request_status demoStoreApproved 1 "Issued" none (some "lab")
        "t1").2.notifications.map notifView = [("alice", false, "t1")] :=
  ((issue_transition_spec demoStoreApproved 1 none (some "lab") "t1"
      demoReqApproved (by decide)).2 demoHCl (by decide)).2 (by decide)

/-!  ## C7: notifications appended by each successful transition -/

/-- C7. On a successful transition the appended notifications are exactly:
for `Approved`, one to the requester and one to the `lab_incharge` channel;
for `Rejected`, one to the requester; for `Issued`, one to the requester —
and every appended notification is unseen and stamped with the current
time. -/
theorem transition_notifications_spec (s : Store) (rid : Nat)
    (target : String) (sup lab : Option String) (now : String) (r : Request)
    (hr : find_request s rid = some r) :
    ((update_request_status s rid target sup lab now).1 =
        UpdateResult.approved →
      (update_request_status s rid target sup lab
          now).2.notifications.map notifView =
        s.notifications.map notifView ++
          [(r.username, false, now), ("lab_incharge", false, now)]) ∧
    ((update_request_status s rid target sup lab now).1 =
        UpdateResult.rejected →
      (update_request_status s rid target sup lab
          now).2.notifications.map notifView =
        s.notifications.map notifView ++ [(r.username, false, now)]) ∧
    ((update_request_status s rid target sup lab now).1 =
        UpdateResult.issuedOk →
      (update_request_status s rid target sup lab
          now).2.notifications.map notifView =
        s.notifications.map notifView ++ [(r.username, false, now)]) := by
  unfold find_request at hr
  unfold update_request_status
  rw [hr]
  dsimp only
  by_cases hA : target = "Approved"
  · rw [if_pos hA]
    dsimp only [push_notification]
    refine ⟨fun _ => ?_, fun h => UpdateResult.noConfusion h,
            fun h => UpdateResult.noConfusion h⟩
    simp [notifView, List.map_append, List.append_assoc]
  · rw [if_neg hA]
    by_cases hRj : target = "Rejected"
    · rw [if_pos hRj]
      dsimp only [push_notification]
      refine ⟨fun h => UpdateResult.noConfusion h, fun _ => ?_,
              fun h => UpdateResult.noConfusion h⟩
      simp [notifView, List.map_append]
    · rw [if_neg hRj]
      by_cases hI : target = "Issued"
      · rw [if_pos hI]
        cases hc : s.chemicals.find? (fun c => c.chemical = r.chemical) with
        | none =>
          exact ⟨fun h => UpdateResult.noConfusion h,
                 fun h => UpdateResult.noConfusion h,
                 fun h => UpdateResult.noConfusion h⟩
        | some c =>
          dsimp only
          by_cases hgt : r.amount > c.amount_remaining
          · rw [if_pos hgt]
            exact ⟨fun h => UpdateResult.noConfusion h,
                   fun h => UpdateResult.noConfusion h,
                   fun h => UpdateResult.noConfusion h⟩
          · rw [if_neg hgt]
            dsimp only [push_notification]
            refine ⟨fun h => UpdateResult.noConfusion h,
                    fun h => UpdateResult.noConfusion h, fun _ => ?_⟩
            simp [notifView, List.map_append]
      · rw [if_neg hI]
        exact ⟨fun h => UpdateResult.noConfusion h,
               fun h => UpdateResult.noConfusion h,
               fun h => UpdateResult.noConfusion h⟩

/-- Witness for C7: approving the demo request appends exactly one unseen
notification to `alice` and one to the `lab_incharge` channel, both stamped
`t1`. -/
theorem transition_notifications_spec_witness :
    (update_request_status demoStore 1 "Approved" (some "sue") none
        "t1").2.notifications.map notifView =
      [("alice", false, "t1"), ("lab_incharge", false, "t1")] :=
  (transition_notifications_spec demoStore 1 "Approved" (some "sue") none
      "t1" demoReq (by decide)).1 (by decide)

/-!  ## C10: a failed `Issued` transition leaves the store unchanged -/

/-- C10. Whenever `update_request_status(rid, "Issued", ...)` fails — the
request id is unknown, the chemical has no ledger row, or the amount
exceeds the remaining stock — the whole store is unchanged: requests (so
also `status`, `lab_incharge`, `updated_at`), chemicals, issuance records,
notifications and counters all keep their prior values. -/
theorem issue_failure_frame (s : Store) (rid : Nat) (sup lab : Option String)
    (now : String)
    (h : (update_request_status s rid "Issued" sup lab now).1 ≠
      UpdateResult.issuedOk) :
    (update_request_status s rid "Issued" sup lab now).2 = s := by
  have key : (update_request_status s rid "Issued" sup lab now).1 =
      UpdateResult.issuedOk ∨
      (update_request_status s rid "Issued" sup lab now).2 = s := by
    unfold update_request_status
    cases hr : s.requests.find? (fun r => r.id = rid) with
    | none => exact Or.inr rfl
    | some r =>
      dsimp only
      rw [if_neg (by decide : ¬ ("Issued" : String) = "Approved"),
          if_neg (by decide : ¬ ("Issued" : String) = "Rejected"),
          if_pos rfl]
      cases hc : s.chemicals.find? (fun c => c.chemical = r.chemical) with
      | none => exact Or.inr rfl
      | some c =>
        dsimp only
        by_cases hgt : r.amount > c.amount_remaining
        · rw [if_pos hgt]
          exact Or.inr rfl
        · rw [if_neg hgt]
          exact Or.inl rfl
  exact key.resolve_left h

/-- Witness for C10: issuing an unknown request id on the empty store fails
and leaves the store exactly as it was. -/
theorem issue_failure_frame_witness :
    (update_request_status emptyStore 1 "Issued" none none "t1").2 =
      emptyStore :=
  issue_failure_frame emptyStore 1 none none "t1" (by decide)

/-!  ## C1: the status "state machine" -/

/-- Counterexample to C1 as stated: `update_request_status` never consults
the current status. On the demo store the request is `Pending`, yet the
`Pending → Issued` call succeeds and moves the request to `Issued`, where
the claim requires it to be rejected and the request left unchanged. -/
theorem pending_issue_counterexample :
    (find_request demoStore 1).map Request.status = some "Pending" ∧
    (update_request_status demoStore 1 "Issued" none (some "lab") "t1").1 =
      UpdateResult.issuedOk ∧
    (find_request (update_request_status demoStore 1 "Issued" none
        (some "lab") "t1").2 1).map Request.status = some "Issued" := by
  decide

/-- C1 (amended). `update_request_status` gates on the target string and on
stock only, never on the current status: a call on an existing request
succeeds exactly when the target is `"Approved"` or `"Rejected"` (from any
current status, terminal ones included), or the target is `"Issued"`, the
chemical has a ledger row and the amount is within the remaining stock
(again from any current status); every failing call — unknown id,
unrecognised target, missing chemical or insufficient stock — leaves the
store unchanged. -/
theorem update_request_status_success_characterization (s : Store)
    (rid : Nat) (target : String) (sup lab : Option String) (now : String) :
    (updateSucceeds (update_request_status s rid target sup lab now).1 =
        true ↔
      (∃ r, find_request s rid = some r ∧
        (target = "Approved" ∨ target = "Rejected" ∨
          (target = "Issued" ∧
            ∃ c, find_chemical s r.chemical = some c ∧
              r.amount ≤ c.amount_remaining)))) ∧
    (updateSucceeds (update_request_status s rid target sup lab now).1 =
        false →
      (update_request_status s rid target sup lab now).2 = s) := by
  unfold update_request_status
  cases hr : s.requests.find? (fun r => r.id = rid) with
  | none =>
    have hfindn : find_request s rid = none := by unfold find_request; rw [hr]
    constructor
    · constructor
      · intro h
        exact Bool.noConfusion h
      · rintro ⟨r, hr', -⟩
        rw [hfindn] at hr'
        exact Option.noConfusion hr'
    · intro _
      rfl
  | some r =>
    have hfind : find_request s rid = some r := by unfold find_request; rw [hr]
    dsimp only
    by_cases hA : target = "Approved"
    · rw [if_pos hA]
      exact ⟨⟨fun _ => ⟨r, hfind, Or.inl hA⟩, fun _ => rfl⟩,
             fun hfalse => Bool.noConfusion hfalse⟩
    · rw [if_neg hA]
      by_cases hRj : target = "Rejected"
      · rw [if_pos hRj]
        exact ⟨⟨fun _ => ⟨r, hfind, Or.inr (Or.inl hRj)⟩, fun _ => rfl⟩,
               fun hfalse => Bool.noConfusion hfalse⟩
      · rw [if_neg hRj]
        by_cases hI : target = "Issued"
        · rw [if_pos hI]
          cases hc : s.chemicals.find? (fun c => c.chemical = r.chemical) with
          | none =>
            have hcn : find_chemical s r.chemical = none := by
              unfold find_chemical; rw [hc]
            constructor
            · constructor
              · intro h
                exact Bool.noConfusion h
              · rintro ⟨r', hr', hcase⟩
                rw [hfind] at hr'
                injection hr' with hrr
                subst hrr
                rcases hcase with h1 | h2 | ⟨-, c', hc', -⟩
                · exact absurd h1 hA
                · exact absurd h2 hRj
                · rw [hcn] at hc'
                  exact Option.noConfusion hc'
            · intro _
              rfl
          | some c =>
            have hcfind : find_chemical s r.chemical = some c := by
              unfold find_chemical; rw [hc]
            dsimp only
            by_cases hgt : r.amount > c.amount_remaining
            · rw [if_pos hgt]
              constructor
              · constructor
                · intro h
                  exact Bool.noConfusion h
                · rintro ⟨r', hr', hcase⟩
                  rw [hfind] at hr'
                  injection hr' with hrr
                  subst hrr
                  rcases hcase with h1 | h2 | ⟨-, c', hc', hle⟩
                  · exact absurd h1 hA
                  · exact absurd h2 hRj
                  · rw [hcfind] at hc'
                    injection hc' with hcc
                    subst hcc
                    exact absurd hle (not_le.mpr hgt)
              · intro _
                rfl
            · rw [if_neg hgt]
              exact ⟨⟨fun _ =>
                       ⟨r, hfind, Or.inr (Or.inr
                         ⟨hI, c, hcfind, not_lt.mp hgt⟩)⟩,
                      fun _ => rfl⟩,
                     fun hfalse => Bool.noConfusion hfalse⟩
        · rw [if_neg hI]
          constructor
          · constructor
            · intro h
              exact Bool.noConfusion h
            · rintro ⟨r', hr', h1 | h2 | ⟨h3, -⟩⟩
              · exact absurd h1 hA
              · exact absurd h2 hRj
              · exact absurd h3 hI
          · intro _
            rfl

/-- Witness for C1 (amended): on the empty store, an `"Approved"` call for
the unknown request id 7 fails and leaves the store unchanged. -/
theorem update_request_status_success_characterization_witness :
    (update_request_status emptyStore 7 "Approved" none none "t1").2 =
      emptyStore :=
  (update_request_status_success_characterization emptyStore 7 "Approved"
      none none "t1").2 (by decide)

/-!  ## C8: unseen-notification query and `mark_notifications_seen` -/

/-- C8. `fetchUnseen(recipient)` returns exactly the `(id, message,
created_at)` rows of that recipient's unseen notifications (a permutation
of the filtered table), ordered newest first (sorted by `created_at`
descending); `markSeen` on the empty id list is a no-op; and after
`markSeen(ids)` the query returns no row whose id is in `ids`. -/
theorem notifications_query_spec (s : Store) (user : String)
    (ids : List Nat) :
    List.Sorted createdGe (get_unseen_notifications s user) ∧
    List.Perm (get_unseen_notifications s user)
      ((s.notifications.filter
          (fun n => n.recipient = user ∧ n.seen = false)).map
        (fun n => (n.id, n.message, n.created_at))) ∧
    mark_notifications_seen s [] = s ∧
    (∀ i ∈ ids, ∀ m c,
      (i, m, c) ∉
        get_unseen_notifications (mark_notifications_seen s ids) user) := by
  refine ⟨List.sorted_insertionSort createdGe _,
          List.perm_insertionSort createdGe _, rfl, ?_⟩
  intro i hi m c hmem
  unfold get_unseen_notifications at hmem
  have hmem2 := (List.perm_insertionSort createdGe _).mem_iff.mp hmem
  rcases List.mem_map.mp hmem2 with ⟨n, hnfilter, heq⟩
  rcases List.mem_filter.mp hnfilter with ⟨hnmem, hpred⟩
  simp only [decide_eq_true_eq] at hpred
  obtain ⟨-, hseen⟩ := hpred
  have hid : n.id = i := congrArg (fun t => t.1) heq
  unfold mark_notifications_seen at hnmem
  by_cases hids : ids = []
  · subst hids
    exact absurd hi (List.not_mem_nil i)
  · rw [if_neg hids] at hnmem
    rcases List.mem_map.mp hnmem with ⟨n0, -, hmark⟩
    by_cases hin : n0.id ∈ ids
    · rw [if_pos hin] at hmark
      have hts : n.seen = true := by rw [← hmark]
      rw [hseen] at hts
      exact Bool.noConfusion hts
    · rw [if_neg hin] at hmark
      apply hin
      rw [hmark, hid]
      exact hi

/-- Notification table used by the C8 witness: two unseen rows for `alice`,
one for `bob`. -/
def demoNotifStore : Store :=
  ⟨[], [], [],
   [⟨1, "alice", "m1", false, "t1"⟩, ⟨2, "alice", "m2", false, "t2"⟩,
    ⟨3, "bob", "m3", false, "t1"⟩], 1, 1, 4⟩

/-- Witness for C8: after marking notification 1 seen, the unseen query for
`alice` no longer returns it. -/
theorem notifications_query_spec_witness :
    (1, "m1", "t1") ∉
      get_unseen_notifications
        (mark_notifications_seen demoNotifStore [1]) "alice" :=
  (notifications_query_spec demoNotifStore "alice" [1]).2.2.2 1 (by decide)
    "m1" "t1"

/-!  ## C6: spreadsheet import -/

/-- Replacing the matching rows keeps the key list unchanged, so upserting
into a key-nodup ledger keeps the keys nodup. -/
theorem upsert_keys_nodup (acc : List Chemical) (c : Chemical)
    (h : (acc.map Chemical.chemical).Nodup) :
    ((upsertChemical acc c).map Chemical.chemical).Nodup := by
  unfold upsertChemical
  by_cases hany : acc.any (fun x => x.chemical = c.chemical) = true
  · rw [if_pos hany, List.map_map]
    have hfun :
        (Chemical.chemical ∘ fun x =>
          if x.chemical = c.chemical then c else x) = Chemical.chemical := by
      funext x
      by_cases hx : x.chemical = c.chemical
      · simp [Function.comp, if_pos hx, hx]
      · simp [Function.comp, if_neg hx]
    rw [hfun]
    exact h
  · rw [if_neg hany, List.map_append]
    refine List.Nodup.append h (List.nodup_singleton _) ?_
    intro a ha hb
    rcases List.mem_map.mp ha with ⟨x, hxmem, rfl⟩
    have hxc : x.chemical = c.chemical := List.mem_singleton.mp hb
    exact hany (List.any_eq_true.mpr ⟨x, hxmem, by simp [hxc]⟩)

/-- After an upsert, looking the chemical up by its name yields exactly the
upserted row: a duplicate name overwrites the prior row rather than adding
a second one. -/
theorem find?_upsert (l : List Chemical) (c : Chemical) :
    (upsertChemical l c).find? (fun x => x.chemical = c.chemical) = some c := by
  unfold upsertChemical
  by_cases hany : l.any (fun x => x.chemical = c.chemical) = true
  · rw [if_pos hany]
    induction l with
    | nil => exact absurd hany (by simp)
    | cons y l ih =>
      by_cases hy : y.chemical = c.chemical
      · simp [List.find?, hy]
      · rw [List.any_cons] at hany
        have hl : l.any (fun x => x.chemical = c.chemical) = true := by
          simpa [hy] using hany
        simp [List.find?, hy, ih hl]
  · rw [if_neg hany]
    induction l with
    | nil => simp [List.find?]
    | cons y l ih =>
      rw [List.any_cons] at hany
      have hy : ¬ y.chemical = c.chemical := by
        intro hyc
        exact hany (by simp [hyc])
      have hl : ¬ l.any (fun x => x.chemical = c.chemical) = true := by
        intro hla
        exact hany (by simp [hla])
      simp [List.find?, hy, ih hl]

/-- Folding the import's upserts preserves nodup keys. -/
theorem foldl_upsert_nodup (rows : List ExcelRow) :
    ∀ acc : List Chemical, (acc.map Chemical.chemical).Nodup →
      ((rows.foldl (fun acc r => upsertChemical acc (rowToChemical r))
          acc).map Chemical.chemical).Nodup := by
  induction rows with
  | nil => exact fun acc h => h
  | cons r rows ih => exact fun acc h => ih _ (upsert_keys_nodup acc _ h)

/-- C6 (amended). `replaceMasterList` fails with `SchemaError` when a
required column is absent, leaving the store untouched; on success it
replaces the whole `chemicals` table (the result is independent of the
prior ledger) and the resulting names are duplicate-free; a missing
`Quantity` or `Q.Issued` cell defaults to 0; a missing `Q.Remaining` cell
becomes `total − issued` when the (defaulted) total is nonzero and `0`
when the total is absent **or zero**; and upserting a row whose name is
already present overwrites that row instead of creating a duplicate key. -/
theorem upload_master_spec (s : Store) (f : ExcelFile) :
    (¬ (∀ col ∈ requiredColumns, col ∈ f.columns) →
      upload_master_from_excel s f = (.schemaError, s)) ∧
    ((∀ col ∈ requiredColumns, col ∈ f.columns) →
      (upload_master_from_excel s f).1 = UploadResult.ok ∧
      (∀ s' : Store, (upload_master_from_excel s' f).2.chemicals =
        (upload_master_from_excel s f).2.chemicals) ∧
      ((upload_master_from_excel s f).2.chemicals.map
          Chemical.chemical).Nodup) ∧
    (∀ r : ExcelRow,
      (rowToChemical r).amount_total = r.quantity.getD 0 ∧
      (rowToChemical r).issued_total = r.q_issued.getD 0 ∧
      (r.q_remaining = none → r.quantity.getD 0 ≠ 0 →
        (rowToChemical r).amount_remaining =
          r.quantity.getD 0 - r.q_issued.getD 0) ∧
      (r.q_remaining = none → r.quantity.getD 0 = 0 →
        (rowToChemical r).amount_remaining = 0) ∧
      (∀ v, r.q_remaining = some v →
        (rowToChemical r).amount_remaining = v)) ∧
    (∀ (l : List Chemical) (c : Chemical),
      (upsertChemical l c).find? (fun x => x.chemical = c.chemical) =
        some c) := by
  have hcond : (requiredColumns.all (fun col => f.columns.contains col) =
      true) ↔ (∀ col ∈ requiredColumns, col ∈ f.columns) := by
    simp [List.all_eq_true]
  refine ⟨?_, ?_, ?_, find?_upsert⟩
  · intro h
    unfold upload_master_from_excel
    rw [if_neg (fun hall => h (hcond.mp hall))]
  · intro h
    have hall := hcond.mpr h
    refine ⟨?_, ?_, ?_⟩
    · unfold upload_master_from_excel
      rw [if_pos hall]
    · intro s'
      unfold upload_master_from_excel
      rw [if_pos hall, if_pos hall]
    · unfold upload_master_from_excel
      rw [if_pos hall]
      exact foldl_upsert_nodup f.rows [] (by simp)
  · intro r
    refine ⟨rfl, rfl, ?_, ?_, ?_⟩
    · intro h0 hne
      simp [rowToChemical, h0, hne]
    · intro h0 hz
      simp [rowToChemical, h0, hz]
    · intro v hv
      simp [rowToChemical, hv]

/-- A spreadsheet missing most of the required columns. -/
def badFile : ExcelFile := ⟨["S.NO.", "Names"], []⟩

/-- Witness for C6: uploading a spreadsheet without the required columns
fails with the schema error and leaves the demo store untouched. -/
theorem upload_master_spec_witness :
    upload_master_from_excel demoStore badFile =
      (UploadResult.schemaError, demoStore) :=
  (upload_master_spec demoStore badFile).1 (by decide)

/-- One-row spreadsheet with `Quantity = 0` (present), `Q.Issued = 5` and a
missing `Q.Remaining`. -/
def zeroQtyFile : ExcelFile :=
  ⟨requiredColumns, [⟨some 1, "X", some 0, some "g", some 5, none, some ""⟩]⟩

/-- Counterexample to C6 as stated: with `Q.Remaining` missing and a
present-but-zero total, the import stores `remaining = 0`, not
`total − issued = −5` — Python's `qty - issued_total if qty else 0.0`
treats a zero total like an absent one. -/
theorem upload_remaining_default_counterexample :
    zeroQtyFile.rows.map ExcelRow.q_remaining = [none] ∧
    zeroQtyFile.rows.map ExcelRow.quantity = [some 0] ∧
    (upload_master_from_excel emptyStore zeroQtyFile).1 = UploadResult.ok ∧
    find_chemical (upload_master_from_excel emptyStore zeroQtyFile).2 "X" =
      some ⟨some 1, "X", 0, 0, 5, "g", ""⟩ ∧
    ¬ ((0 : Rat) = 0 - 5) := by decide

end ChemApp
